import Mathlib

/-!
# Command/event bridge and firmware handover of the mesh bootloader

A shallow embedding of `nRF51/bootloader/bootloader.c`.

* The file's only static variable, the command handler binding
  `m_cmd_handler`, and the hardware registers the file reads (`NVIC->ISER[0]`,
  `NRF_RTC0->COUNTER`) are fields of `State`.
* Every call the file makes on a collaborator (decision core, transport,
  flash, soft-device, validator, interrupt controller, RTC registers, error
  handler, application start, reset) is appended to `State.log`, together
  with the value of the interrupt enable register at the moment of the call.
  The pointer lookups (`mesh_packet_adv_data_get`,
  `bootloader_info_entry_get`, `mesh_packet_get_aligned`) only read memory and
  are functions of `Platform`.
* Calls that do not return (`bootloader_util_app_start`, `NVIC_SystemReset`,
  a non-returning error handler, a call through a null function pointer) end
  the run with `Res.halt`.
* Constants, types and functions that are declared in headers outside this
  source file are fields of `Platform`.
* The log is the log of one activation of a bridge function: what the decision
  core does while it handles a command is its own business and is not logged.
-/

namespace Bootloader

/-! ## Constants -/

/-- Status code of `nrf_error.h`. -/
def NRF_SUCCESS : Nat := 0
/-- Status code of `nrf_error.h`. -/
def NRF_ERROR_INTERNAL : Nat := 3
/-- Status code of `nrf_error.h`. -/
def NRF_ERROR_NOT_SUPPORTED : Nat := 6

/-- Field that identifies if an interrupt is enabled. -/
def IRQ_ENABLED : Nat := 0x01
/-- Maximum number of interrupts available. -/
def MAX_NUMBER_INTERRUPTS : Nat := 32

/-- Width of the machine word: `uint32_t` arithmetic is taken modulo this. -/
def WORD : Nat := 2 ^ 32

/-! ## Data model -/

/-- End reasons of a DFU session (`bl_end_t`); `other` is any value besides the
five that `bootloader_abort` names. -/
inductive bl_end_t where
  | BL_END_SUCCESS
  | BL_END_ERROR_TIMEOUT
  | BL_END_FWID_VALID
  | BL_END_ERROR_MBR_CALL_FAILED
  | BL_END_ERROR_INVALID_PERSISTENT_STORAGE
  | other (n : Nat)
  deriving DecidableEq, Repr

/-- Metadata types (`bl_info_type_t`); only `BL_INFO_TYPE_FLAGS` is used. -/
inductive bl_info_type_t where
  | BL_INFO_TYPE_FLAGS
  | other (n : Nat)
  deriving DecidableEq, Repr

/-- The part of a metadata entry that the file reads: `segment.start`. -/
structure bl_info_entry_t where
  segment_start : Nat
  deriving DecidableEq, Repr

/-- Functions of this file whose address is handed to a collaborator. -/
inductive fn_ref where
  | bl_evt_handler
  | rx_cb
  deriving DecidableEq, Repr

/-- Downward commands (`bl_cmd_t`), bridge to decision core. `other` stands for
a command with any other tag, as `bootloader_cmd_send` forwards whatever it is
given. -/
inductive bl_cmd_t where
  | BL_CMD_TYPE_INIT (bl_if_version : Nat) (event_callback : fn_ref) (timer_count : Nat)
  | BL_CMD_TYPE_ENABLE
  | BL_CMD_TYPE_INFO_GET (type : bl_info_type_t)
  | BL_CMD_TYPE_RX (p_dfu_packet : Nat) (length : Nat)
  | BL_CMD_TYPE_FLASH_WRITE_COMPLETE (start_addr p_data length : Nat)
  | BL_CMD_TYPE_FLASH_ERASE_COMPLETE (start_addr length : Nat)
  | other (type : Nat)
  deriving DecidableEq, Repr

/-- Upward events (`bl_evt_t`), decision core to bridge. `other` is an event
whose tag is none of the five that `bl_evt_handler` names. -/
inductive bl_evt_t where
  | BL_EVT_TYPE_ABORT (reason : bl_end_t)
  | BL_EVT_TYPE_TX_RADIO (p_dfu_packet tx_count interval_type : Nat)
  | BL_EVT_TYPE_TIMER_SET (delay_us : Nat)
  | BL_EVT_TYPE_FLASH_WRITE (start_addr p_data length : Nat)
  | BL_EVT_TYPE_FLASH_ERASE (start_addr length : Nat)
  | other (type : Nat)
  deriving DecidableEq, Repr

/-- What `rx_cb` reads through the pointer that `mesh_packet_adv_data_get`
returns: the pointer itself and the two fields `adv_data_length` (a byte) and
`handle`. -/
structure mesh_adv_data_t where
  p_adv_data : Nat
  adv_data_length : Nat
  handle : Nat
  deriving DecidableEq, Repr

/-- Calls made by the bridge on its collaborators and on the hardware. -/
inductive Effect where
  | m_cmd_handler (target : Nat) (cmd : bl_cmd_t)
  | rtc_init
  | mesh_aci_init
  | transport_init (callback : fn_ref) (access_address : Nat)
  | transport_start
  | transport_tx (p_packet tx_count interval_type : Nat)
  | nrf_flash_store (p_dest p_data length offset : Nat)
  | nrf_flash_erase (p_page length : Nat)
  | RTC0_EVENTS_COMPARE_write (channel value : Nat)
  | RTC0_CC_write (channel value : Nat)
  | RTC0_INTENSET_write (value : Nat)
  | bootloader_app_is_valid (p_app : Nat)
  | NVIC_DisableIRQ (irq : Nat)
  | sd_mbr_command_INIT_SD
  | sd_softdevice_vector_table_base_set (address : Nat)
  | app_error_handler (error_code : Nat)
  | bootloader_util_app_start (address : Nat)
  | NVIC_SystemReset
  deriving DecidableEq, Repr

/-- One logged call: the call and `NVIC->ISER[0]` at the moment it is made. -/
structure Call where
  eff : Effect
  iser : Nat
  deriving DecidableEq, Repr

/-- State of the bridge and of the registers it reads. -/
structure State where
  /-- the static `m_cmd_handler`; `0` is `NULL` -/
  m_cmd_handler : Nat
  /-- interrupt set-enable register `NVIC->ISER[0]`: bit `i` set iff interrupt `i` is enabled -/
  NVIC_ISER : Nat
  /-- current value of `NRF_RTC0->COUNTER` -/
  RTC0_COUNTER : Nat
  /-- calls made so far, oldest first -/
  log : List Call
  deriving DecidableEq, Repr

/-- Ways in which a run ends without returning to its caller. -/
inductive Halt where
  /-- call through a null function pointer -/
  | null_call
  /-- execution was transferred to the application at this address -/
  | app_started (address : Nat)
  /-- full system reset -/
  | system_reset
  /-- the error handler did not return -/
  | fatal_error
  deriving DecidableEq, Repr

/-- Result of running bridge code: it returns a value, or the run ends. -/
inductive Res (α : Type) where
  | ok (val : α) (s : State)
  | halt (h : Halt) (s : State)
  deriving DecidableEq, Repr

/-- Everything the file takes from outside: header constants, build switches,
hardware registers that are read only, and the collaborators. -/
structure Platform where
  RBC_MESH_APP_MAX_HANDLE : Nat
  BOOTLOADER_INFO_ADDRESS : Nat
  RTC_BL_STATE_CH : Nat
  RTC_MASK : Nat
  RTC_INTENSET_COMPARE0_Pos : Nat
  BL_IF_VERSION : Nat
  RBC_MESH_ACCESS_ADDRESS_BLE_ADV : Nat
  /-- offset of the field `handle` in `mesh_adv_data_t` -/
  handle_offset : Nat
  /-- build switch `NO_TIMEOUTS` -/
  NO_TIMEOUTS : Bool
  /-- build switch `SERIAL` -/
  SERIAL : Bool
  FICR_SIZERAMBLOCKS : Nat
  FICR_NUMRAMBLOCK : Nat
  /-- the 32 bit word stored at an address -/
  mem32 : Nat → Nat
  bootloader_info_entry_get : Nat → bl_info_type_t → Option bl_info_entry_t
  bootloader_app_is_valid : Nat → Bool
  /-- status returned by `sd_mbr_command` for `SD_MBR_COMMAND_INIT_SD` -/
  sd_mbr_command_INIT_SD : Nat
  /-- status returned by `sd_softdevice_vector_table_base_set` -/
  sd_softdevice_vector_table_base_set : Nat → Nat
  transport_tx : Nat → Nat → Nat → Bool
  mesh_packet_get_aligned : Nat → Nat
  /-- the result `none` is a `NULL` pointer -/
  mesh_packet_adv_data_get : Nat → Option mesh_adv_data_t
  /-- status the decision core returns for a command -/
  cmd_handler : bl_cmd_t → Nat
  /-- whether `app_error_handler` returns to its caller -/
  app_error_handler_returns : Bool

/-! ## Running code -/

/-- Code that runs on a state. -/
abbrev M (α : Type) : Type := State → Res α

/-- Sequencing: a halted run stays halted. -/
def Res.andThen {α β : Type} (r : Res α) (f : α → M β) : Res β :=
  match r with
  | .ok a s => f a s
  | .halt h s => .halt h s

instance : Monad M where
  pure a := fun s => .ok a s
  bind m f := fun s => (m s).andThen f

/-- Append a call to the log. -/
def State.record (s : State) (e : Effect) : State :=
  { s with log := s.log ++ [⟨e, s.NVIC_ISER⟩] }

/-- Make a call that returns nothing and changes no register. -/
def call (e : Effect) : M Unit := fun s => .ok () (s.record e)

/-- Make a call that does not return. -/
def call_noreturn {α : Type} (e : Effect) (h : Halt) : M α := fun s => .halt h (s.record e)

/-! ## Static functions -/

/-- Call through the binding `m_cmd_handler`, as in `m_cmd_handler(&cmd)`. The
source makes the call whatever the pointer holds. A call through a null
function pointer has no defined behaviour in C; on the Cortex-M0 the branch to
address 0 raises a HardFault, so the run ends at the call. -/
def m_cmd_handler (p : Platform) (cmd : bl_cmd_t) : M Nat := fun s =>
  if s.m_cmd_handler = 0 then
    .halt .null_call (s.record (.m_cmd_handler s.m_cmd_handler cmd))
  else
    .ok (p.cmd_handler cmd) (s.record (.m_cmd_handler s.m_cmd_handler cmd))

/-- Source: `set_timeout`. -/
def set_timeout (p : Platform) (time : Nat) : M Unit :=
  if p.NO_TIMEOUTS then
    pure ()
  else do
    call (.RTC0_EVENTS_COMPARE_write p.RTC_BL_STATE_CH 0)
    let counter ← (fun s => .ok s.RTC0_COUNTER s : M Nat)
    call (.RTC0_CC_write p.RTC_BL_STATE_CH (((counter + time) % WORD) &&& p.RTC_MASK))
    call (.RTC0_INTENSET_write ((1 <<< (p.RTC_BL_STATE_CH + p.RTC_INTENSET_COMPARE0_Pos)) % WORD))

/-- CMSIS `NVIC_DisableIRQ`: writes bit `irq & 0x1F` to `ICER[0]`, which clears
that bit of the enable register. -/
def NVIC_DisableIRQ (irq : Nat) : M Unit := fun s =>
  .ok () { s.record (.NVIC_DisableIRQ irq) with
            NVIC_ISER := s.NVIC_ISER ^^^ (s.NVIC_ISER &&& (1 <<< (irq % 32))) }

/-- Body of the loop of `interrupts_disable` for one value of `irq`. -/
def interrupts_disable_step (interrupt_setting_mask irq : Nat) : M Unit :=
  if interrupt_setting_mask &&& (IRQ_ENABLED <<< irq) ≠ 0 then
    NVIC_DisableIRQ irq
  else
    pure ()

/-- The loop of `interrupts_disable` over the given values of `irq`. -/
def interrupts_disable_loop (interrupt_setting_mask : Nat) : List Nat → M Unit
  | [] => pure ()
  | irq :: rest => do
      interrupts_disable_step interrupt_setting_mask irq
      interrupts_disable_loop interrupt_setting_mask rest

/-- Source: `interrupts_disable`. -/
def interrupts_disable : M Unit := fun s =>
  let interrupt_setting_mask := s.NVIC_ISER
  interrupts_disable_loop interrupt_setting_mask (List.range MAX_NUMBER_INTERRUPTS) s

/-- The handler that `APP_ERROR_CHECK` and `APP_ERROR_CHECK_BOOL` call. It is
defined outside this file; whether it returns is left to the platform. -/
def app_error_handler (p : Platform) (error_code : Nat) : M Unit :=
  if p.app_error_handler_returns then
    call (.app_error_handler error_code)
  else
    call_noreturn (.app_error_handler error_code) .fatal_error

/-- Macro `APP_ERROR_CHECK` of the SDK header `app_error.h`: the error handler
is called when the code is not `NRF_SUCCESS`. -/
def APP_ERROR_CHECK (p : Platform) (err_code : Nat) : M Unit :=
  if err_code ≠ NRF_SUCCESS then app_error_handler p err_code else pure ()

/-- Macro `APP_ERROR_CHECK_BOOL` of the SDK header `app_error.h`: the error
handler is called with code 0 when the value is false. -/
def APP_ERROR_CHECK_BOOL (p : Platform) (boolean_value : Bool) : M Unit :=
  if !boolean_value then app_error_handler p 0 else pure ()

/-- Call of the external validator. -/
def bootloader_app_is_valid (p : Platform) (p_app : Nat) : M Bool := fun s =>
  .ok (p.bootloader_app_is_valid p_app) (s.record (.bootloader_app_is_valid p_app))

/-- Call of `sd_mbr_command` with `SD_MBR_COMMAND_INIT_SD`. -/
def sd_mbr_command_INIT_SD (p : Platform) : M Nat := fun s =>
  .ok p.sd_mbr_command_INIT_SD (s.record .sd_mbr_command_INIT_SD)

/-- Call of `sd_softdevice_vector_table_base_set`. -/
def sd_softdevice_vector_table_base_set (p : Platform) (address : Nat) : M Nat := fun s =>
  .ok (p.sd_softdevice_vector_table_base_set address)
    (s.record (.sd_softdevice_vector_table_base_set address))

/-- Call of `transport_tx`. -/
def transport_tx (p : Platform) (p_packet tx_count interval_type : Nat) : M Bool := fun s =>
  .ok (p.transport_tx p_packet tx_count interval_type)
    (s.record (.transport_tx p_packet tx_count interval_type))

/-- Source: `bootloader_abort`. -/
def bootloader_abort (p : Platform) (end_reason : bl_end_t) : M Unit :=
  let p_segment_entry :=
    p.bootloader_info_entry_get p.BOOTLOADER_INFO_ADDRESS .BL_INFO_TYPE_FLAGS
  let attempt_launch : M Unit :=
    match p_segment_entry with
    | none => pure ()
    | some entry => do
        let valid ← bootloader_app_is_valid p entry.segment_start
        if valid then do
          interrupts_disable
          let err_code ← sd_mbr_command_INIT_SD p
          APP_ERROR_CHECK p err_code
          let err_code ← sd_softdevice_vector_table_base_set p entry.segment_start
          APP_ERROR_CHECK p err_code
          call_noreturn (.bootloader_util_app_start entry.segment_start)
            (.app_started entry.segment_start)
        else
          pure ()
  match end_reason with
  | .BL_END_SUCCESS => attempt_launch
  | .BL_END_ERROR_TIMEOUT => attempt_launch
  | .BL_END_FWID_VALID => attempt_launch
  | .BL_END_ERROR_MBR_CALL_FAILED => attempt_launch
  | .BL_END_ERROR_INVALID_PERSISTENT_STORAGE => do
      APP_ERROR_CHECK_BOOL p false
      call_noreturn .NVIC_SystemReset .system_reset
  | .other _ => call_noreturn .NVIC_SystemReset .system_reset

/-- The value that `rx_cmd.params.rx.length = p_adv_data->adv_data_length - 3`
stores: `adv_data_length` is a byte, the subtraction is done in `int` and the
result is converted to the `uint32_t` field `length` of `bl_if.h`, so a
negative difference wraps modulo 2^32. -/
def rx_length (adv_data_length : Nat) : Nat :=
  (adv_data_length % 256 + WORD - 3) % WORD

/-- Source: `rx_cb`. The packet pointer of the command is `&p_adv_data->handle`. -/
def rx_cb (p : Platform) (p_packet : Nat) : M Unit :=
  match p.mesh_packet_adv_data_get p_packet with
  | none => pure ()
  | some adv =>
      if adv.handle > p.RBC_MESH_APP_MAX_HANDLE then do
        let _ ← m_cmd_handler p
          (.BL_CMD_TYPE_RX (adv.p_adv_data + p.handle_offset) (rx_length adv.adv_data_length))
        pure ()
      else
        pure ()

/-- Source: `bl_evt_handler`. -/
def bl_evt_handler (p : Platform) (evt : bl_evt_t) : M Nat :=
  match evt with
  | .BL_EVT_TYPE_ABORT reason => do
      bootloader_abort p reason
      pure NRF_SUCCESS
  | bl_evt_t.BL_EVT_TYPE_TX_RADIO p_dfu_packet tx_count interval_type => do
      let sent ← transport_tx p (p.mesh_packet_get_aligned p_dfu_packet) tx_count interval_type
      if !sent then pure NRF_ERROR_INTERNAL else pure NRF_SUCCESS
  | .BL_EVT_TYPE_TIMER_SET delay_us => do
      set_timeout p delay_us
      pure NRF_SUCCESS
  | .BL_EVT_TYPE_FLASH_WRITE start_addr p_data length => do
      call (.nrf_flash_store start_addr p_data length 0)
      let _ ← m_cmd_handler p (.BL_CMD_TYPE_FLASH_WRITE_COMPLETE start_addr p_data length)
      pure NRF_SUCCESS
  | .BL_EVT_TYPE_FLASH_ERASE start_addr length => do
      call (.nrf_flash_erase start_addr length)
      let _ ← m_cmd_handler p (.BL_CMD_TYPE_FLASH_ERASE_COMPLETE start_addr length)
      pure NRF_SUCCESS
  | .other _ => pure NRF_ERROR_NOT_SUPPORTED

/-! ## Interface functions -/

/-- Address the binding is read from:
`0x20000000 + ((uint32_t) (SIZERAMBLOCKS * NUMRAMBLOCK) - 4)`. -/
def binding_address (p : Platform) : Nat :=
  (0x20000000 + ((p.FICR_SIZERAMBLOCKS * p.FICR_NUMRAMBLOCK) % WORD + WORD - 4) % WORD) % WORD

/-- Value read from the binding location. -/
def binding_value (p : Platform) : Nat :=
  p.mem32 (binding_address p) % WORD

/-- First address past the RAM, which starts at `0x20000000`. -/
def ram_end (p : Platform) : Nat :=
  0x20000000 + p.FICR_SIZERAMBLOCKS * p.FICR_NUMRAMBLOCK

/-- Source: `bootloader_init`. -/
def bootloader_init (p : Platform) : M Unit := fun s =>
  let s1 := { s with m_cmd_handler := binding_value p }
  if s1.m_cmd_handler = 0 ∨ s1.m_cmd_handler ≥ 0x20000000 then
    .ok () { s1 with m_cmd_handler := 0 }
  else
    (do
      call .rtc_init
      let _ ← m_cmd_handler p (.BL_CMD_TYPE_INIT p.BL_IF_VERSION .bl_evt_handler 1)
      if p.SERIAL then call .mesh_aci_init else pure ()
      call (.transport_init .rx_cb p.RBC_MESH_ACCESS_ADDRESS_BLE_ADV) : M Unit) s1

/-- Source: `bootloader_enable`. -/
def bootloader_enable (p : Platform) : M Unit := do
  let _ ← m_cmd_handler p .BL_CMD_TYPE_ENABLE
  call .transport_start

/-- Source: `bootloader_cmd_send`. -/
def bootloader_cmd_send (p : Platform) (p_bl_cmd : bl_cmd_t) : M Nat :=
  m_cmd_handler p p_bl_cmd

/-- The state in which a run ended. -/
def Res.state {α : Type} : Res α → State
  | .ok _ s => s
  | .halt _ s => s

/-- Code that never assigns the binding `m_cmd_handler`. -/
def KeepsBinding {α : Type} (m : M α) : Prop :=
  ∀ s, (m s).state.m_cmd_handler = s.m_cmd_handler

/-! ## Example platform -/

/-- A device with 16 kB of RAM whose binding location holds a handler in flash;
packet `0x20002000` carries a DFU handle, packet `0x20002100` an application
handle, and no advertisement data is found in any other packet. -/
def example_platform : Platform where
  RBC_MESH_APP_MAX_HANDLE := 0xFFEF
  BOOTLOADER_INFO_ADDRESS := 0x3F000
  RTC_BL_STATE_CH := 1
  RTC_MASK := 0xFFFFFF
  RTC_INTENSET_COMPARE0_Pos := 16
  BL_IF_VERSION := 1
  RBC_MESH_ACCESS_ADDRESS_BLE_ADV := 0x8E89BED6
  handle_offset := 4
  NO_TIMEOUTS := false
  SERIAL := false
  FICR_SIZERAMBLOCKS := 8192
  FICR_NUMRAMBLOCK := 2
  mem32 := fun address => if address = 0x20003FFC then 0x3C101 else 0
  bootloader_info_entry_get := fun _ type =>
    match type with
    | .BL_INFO_TYPE_FLAGS => some ⟨0x18000⟩
    | .other _ => none
  bootloader_app_is_valid := fun p_app => p_app = 0x18000
  sd_mbr_command_INIT_SD := 0
  sd_softdevice_vector_table_base_set := fun _ => 0
  transport_tx := fun _ _ _ => true
  mesh_packet_get_aligned := fun p_dfu_packet => p_dfu_packet - 9
  mesh_packet_adv_data_get := fun p_packet =>
    if p_packet = 0x20002000 then some ⟨0x20002009, 27, 0xFFFE⟩
    else if p_packet = 0x20002100 then some ⟨0x20002109, 9, 0x0001⟩
    else none
  cmd_handler := fun _ => 0
  app_error_handler_returns := false

/-- The example device with no FLAGS entry in the metadata. -/
def no_flags_platform : Platform :=
  { example_platform with bootloader_info_entry_get := fun _ _ => none }

/-- The example device with an application image that fails validation. -/
def invalid_app_platform : Platform :=
  { example_platform with bootloader_app_is_valid := fun _ => false }

/-- The example device with a binding location that holds the first address
past the RAM. -/
def beyond_ram_platform : Platform :=
  { example_platform with mem32 := fun _ => 0x20004000 }

/-- The example device receiving, at `0x20002200`, a packet with a DFU handle
whose advertised length is 2. -/
def short_adv_platform : Platform :=
  { example_platform with
    mesh_packet_adv_data_get := fun p_packet =>
      if p_packet = 0x20002200 then some ⟨0x20002209, 2, 0xFFFE⟩ else none }

/-- Modelled from the spec: the conversion of a delay in microseconds to ticks
of a counter that counts `ticks_per_second` ticks a second. The source has no
such conversion. -/
def us_to_ticks (ticks_per_second delay_us : Nat) : Nat :=
  delay_us * ticks_per_second / 1000000

/-- State of a bridge that was never initialised: the static is zeroed, nothing
was called, interrupts 0, 11 and 20 are enabled. -/
def boot_state : State where
  m_cmd_handler := 0
  NVIC_ISER := 0x100801
  RTC0_COUNTER := 1000
  log := []

/-- State of a bridge that is bound to the handler at `0x3C101`. -/
def bound_state : State := { boot_state with m_cmd_handler := 0x3C101 }

/-! ## Lemmas on running code -/

@[simp] theorem pure_run {α : Type} (a : α) (s : State) : (pure a : M α) s = .ok a s := rfl

@[simp] theorem bind_run {α β : Type} (m : M α) (f : α → M β) (s : State) :
    (m >>= f) s = (m s).andThen f := rfl

@[simp] theorem andThen_ok {α β : Type} (a : α) (s : State) (f : α → M β) :
    (Res.ok a s).andThen f = f a s := rfl

@[simp] theorem andThen_halt {α β : Type} (h : Halt) (s : State) (f : α → M β) :
    (Res.halt h s : Res α).andThen f = .halt h s := rfl

@[simp] theorem call_run (e : Effect) (s : State) : call e s = .ok () (s.record e) := rfl

@[simp] theorem call_noreturn_run {α : Type} (e : Effect) (h : Halt) (s : State) :
    (call_noreturn e h : M α) s = .halt h (s.record e) := rfl

theorem m_cmd_handler_bound (p : Platform) (cmd : bl_cmd_t) (s : State)
    (h : s.m_cmd_handler ≠ 0) :
    m_cmd_handler p cmd s = .ok (p.cmd_handler cmd) (s.record (.m_cmd_handler s.m_cmd_handler cmd)) := by
  simp [m_cmd_handler, h]

theorem m_cmd_handler_null (p : Platform) (cmd : bl_cmd_t) (s : State)
    (h : s.m_cmd_handler = 0) :
    m_cmd_handler p cmd s = .halt .null_call (s.record (.m_cmd_handler 0 cmd)) := by
  simp [m_cmd_handler, h]

/-! ## Receive adapter -/

/-- What `rx_cb` does on a bound bridge with a packet whose advertisement data
is present and whose handle is above `RBC_MESH_APP_MAX_HANDLE`, whatever the
advertised length: exactly one call, the dispatch of an RX command with the
address of the handle field and the length that line 102 stores. -/
theorem rx_cb_dispatch (p : Platform) (p_packet : Nat) (adv : mesh_adv_data_t)
    (s : State) (hadv : p.mesh_packet_adv_data_get p_packet = some adv)
    (hhandle : adv.handle > p.RBC_MESH_APP_MAX_HANDLE) (hbound : s.m_cmd_handler ≠ 0) :
    rx_cb p p_packet s =
      .ok () { s with log := s.log ++
        [⟨.m_cmd_handler s.m_cmd_handler
            (.BL_CMD_TYPE_RX (adv.p_adv_data + p.handle_offset) (rx_length adv.adv_data_length)),
          s.NVIC_ISER⟩] } := by
  simp [rx_cb, hadv, hhandle, m_cmd_handler_bound _ _ _ hbound, State.record]

theorem rx_length_of_le (adv_data_length : Nat) (hbyte : adv_data_length < 256)
    (hlen : 3 ≤ adv_data_length) : rx_length adv_data_length = adv_data_length - 3 := by
  unfold rx_length WORD
  rw [Nat.mod_eq_of_lt hbyte]
  omega

/-- C7 as stated fails: a packet with a handle above the threshold and an
advertised length of 2 makes `rx_cb` dispatch an RX command whose length field
is 4294967295, which is not the advertised length minus 3. -/
theorem rx_cb_short_length_counterexample :
    short_adv_platform.mesh_packet_adv_data_get 0x20002200 = some ⟨0x20002209, 2, 0xFFFE⟩ ∧
    (0xFFFE : Nat) > short_adv_platform.RBC_MESH_APP_MAX_HANDLE ∧
    rx_cb short_adv_platform 0x20002200 bound_state =
      .ok () { bound_state with log :=
        [⟨.m_cmd_handler 0x3C101 (.BL_CMD_TYPE_RX 0x2000220D 4294967295), 0x100801⟩] } ∧
    ((4294967295 : Nat) : Int) ≠ ((2 : Nat) : Int) - 3 := by
  refine ⟨rfl, by decide, ?_, by decide⟩
  rw [rx_cb_dispatch short_adv_platform 0x20002200 ⟨0x20002209, 2, 0xFFFE⟩ bound_state rfl
    (by decide) (by decide)]
  decide

/-- C7 amended: for a received packet whose advertisement data is present, whose
handle is above `RBC_MESH_APP_MAX_HANDLE` and whose advertised length, a byte,
is at least 3, `rx_cb` on a bound bridge makes exactly one call, the dispatch
of an RX command whose length is the advertised length minus 3 and whose packet
pointer is the address of the handle field, and returns. -/
theorem rx_cb_dispatches_one_rx (p : Platform) (p_packet : Nat) (adv : mesh_adv_data_t)
    (s : State) (hadv : p.mesh_packet_adv_data_get p_packet = some adv)
    (hhandle : adv.handle > p.RBC_MESH_APP_MAX_HANDLE) (hbound : s.m_cmd_handler ≠ 0)
    (hbyte : adv.adv_data_length < 256) (hlen : 3 ≤ adv.adv_data_length) :
    rx_cb p p_packet s =
      .ok () { s with log := s.log ++
        [⟨.m_cmd_handler s.m_cmd_handler
            (.BL_CMD_TYPE_RX (adv.p_adv_data + p.handle_offset) (adv.adv_data_length - 3)),
          s.NVIC_ISER⟩] } ∧
    ((adv.adv_data_length - 3 : Nat) : Int) = (adv.adv_data_length : Int) - 3 := by
  rw [rx_cb_dispatch p p_packet adv s hadv hhandle hbound, rx_length_of_le _ hbyte hlen]
  exact ⟨rfl, by omega⟩

theorem rx_cb_dispatches_one_rx_witness :
    example_platform.mesh_packet_adv_data_get 0x20002000 = some ⟨0x20002009, 27, 0xFFFE⟩ ∧
    (0xFFFE : Nat) > example_platform.RBC_MESH_APP_MAX_HANDLE ∧
    bound_state.m_cmd_handler ≠ 0 ∧
    (27 : Nat) < 256 ∧ 3 ≤ (27 : Nat) ∧
    rx_cb example_platform 0x20002000 bound_state =
      .ok () { bound_state with log :=
        [⟨.m_cmd_handler 0x3C101 (.BL_CMD_TYPE_RX 0x2000200D 24), 0x100801⟩] } ∧
    (((27 : Nat) - 3 : Nat) : Int) = ((27 : Nat) : Int) - 3 :=
  ⟨rfl, by decide, by decide, by decide, by decide,
    rx_cb_dispatches_one_rx example_platform 0x20002000 ⟨0x20002009, 27, 0xFFFE⟩ bound_state
      rfl (by decide) (by decide) (by decide) (by decide)⟩

/-- C8: for a received packet whose handle is at most
`RBC_MESH_APP_MAX_HANDLE`, `rx_cb` makes no call at all and leaves the state as
it was. -/
theorem rx_cb_drops_app_handles (p : Platform) (p_packet : Nat) (adv : mesh_adv_data_t)
    (s : State) (hadv : p.mesh_packet_adv_data_get p_packet = some adv)
    (hhandle : adv.handle ≤ p.RBC_MESH_APP_MAX_HANDLE) :
    rx_cb p p_packet s = .ok () s := by
  simp [rx_cb, hadv, Nat.not_lt.mpr hhandle]

theorem rx_cb_drops_app_handles_witness :
    example_platform.mesh_packet_adv_data_get 0x20002100 = some ⟨0x20002109, 9, 0x0001⟩ ∧
    (0x0001 : Nat) ≤ example_platform.RBC_MESH_APP_MAX_HANDLE ∧
    rx_cb example_platform 0x20002100 bound_state = .ok () bound_state :=
  ⟨rfl, by decide,
    rx_cb_drops_app_handles example_platform 0x20002100 ⟨0x20002109, 9, 0x0001⟩ bound_state
      rfl (by decide)⟩

/-! ## Event adapter -/

/-- C6: a FLASH_WRITE event handled on a bound bridge makes exactly two calls,
first `nrf_flash_store` with the event's address, data pointer and length, then
the dispatch of a FLASH_WRITE_COMPLETE command with the same three values, and
returns success. -/
theorem bl_evt_handler_flash_write (p : Platform) (start_addr p_data length : Nat) (s : State)
    (hbound : s.m_cmd_handler ≠ 0) :
    bl_evt_handler p (.BL_EVT_TYPE_FLASH_WRITE start_addr p_data length) s =
      .ok NRF_SUCCESS { s with log := s.log ++
        [⟨.nrf_flash_store start_addr p_data length 0, s.NVIC_ISER⟩,
         ⟨.m_cmd_handler s.m_cmd_handler
            (.BL_CMD_TYPE_FLASH_WRITE_COMPLETE start_addr p_data length), s.NVIC_ISER⟩] } := by
  have h : (s.record (.nrf_flash_store start_addr p_data length 0)).m_cmd_handler ≠ 0 := hbound
  simp [bl_evt_handler, m_cmd_handler_bound _ _ _ h]
  simp [State.record]

theorem bl_evt_handler_flash_write_witness :
    bound_state.m_cmd_handler ≠ 0 ∧
    bl_evt_handler example_platform (.BL_EVT_TYPE_FLASH_WRITE 0x18000 0x20001000 16) bound_state =
      .ok NRF_SUCCESS { bound_state with log :=
        [⟨.nrf_flash_store 0x18000 0x20001000 16 0, 0x100801⟩,
         ⟨.m_cmd_handler 0x3C101 (.BL_CMD_TYPE_FLASH_WRITE_COMPLETE 0x18000 0x20001000 16),
          0x100801⟩] } :=
  ⟨by decide,
    bl_evt_handler_flash_write example_platform 0x18000 0x20001000 16 bound_state (by decide)⟩

/-- C9: an event whose tag is none of ABORT, TX_RADIO, TIMER_SET, FLASH_WRITE,
FLASH_ERASE makes `bl_evt_handler` return `NRF_ERROR_NOT_SUPPORTED`, which is
not the success status, with no call made and the state as it was. -/
theorem bl_evt_handler_unknown_tag (p : Platform) (type : Nat) (s : State) :
    bl_evt_handler p (.other type) s = .ok NRF_ERROR_NOT_SUPPORTED s ∧
    NRF_ERROR_NOT_SUPPORTED ≠ NRF_SUCCESS :=
  ⟨rfl, by decide⟩

/-- Every arm of `bl_evt_handler` for TIMER_SET with timeouts compiled in: the
compare event is cleared, the compare register is set to the counter plus the
delay as it was given, masked, the compare interrupt is enabled. -/
theorem bl_evt_handler_timer_set (p : Platform) (delay_us : Nat) (s : State)
    (htimeouts : p.NO_TIMEOUTS = false) :
    bl_evt_handler p (.BL_EVT_TYPE_TIMER_SET delay_us) s =
      .ok NRF_SUCCESS { s with log := s.log ++
        [⟨.RTC0_EVENTS_COMPARE_write p.RTC_BL_STATE_CH 0, s.NVIC_ISER⟩,
         ⟨.RTC0_CC_write p.RTC_BL_STATE_CH (((s.RTC0_COUNTER + delay_us) % WORD) &&& p.RTC_MASK),
          s.NVIC_ISER⟩,
         ⟨.RTC0_INTENSET_write
            ((1 <<< (p.RTC_BL_STATE_CH + p.RTC_INTENSET_COMPARE0_Pos)) % WORD), s.NVIC_ISER⟩] } := by
  simp [bl_evt_handler, set_timeout, htimeouts, State.record]

/-- C10: at a delay of 1000000 microseconds and a counter value of 1000, with
a 24 bit counter mask, `bl_evt_handler` clears the compare event, writes
1001000 to the compare register, enables the compare interrupt and returns
success. The delay is added as a number of ticks: the value differs from the
33768 that a conversion of the delay to ticks of a 32768 Hz counter gives. -/
theorem bl_evt_handler_timer_set_one_second :
    bl_evt_handler example_platform (.BL_EVT_TYPE_TIMER_SET 1000000) bound_state =
      .ok NRF_SUCCESS { bound_state with log :=
        [⟨.RTC0_EVENTS_COMPARE_write 1 0, 0x100801⟩,
         ⟨.RTC0_CC_write 1 1001000, 0x100801⟩,
         ⟨.RTC0_INTENSET_write 0x20000, 0x100801⟩] } ∧
    ((bound_state.RTC0_COUNTER + us_to_ticks 32768 1000000) % WORD) &&& example_platform.RTC_MASK
      = 33768 := by
  refine ⟨?_, by decide⟩
  rw [bl_evt_handler_timer_set example_platform 1000000 bound_state rfl]
  decide

/-! ## Firmware handover -/

/-- C4: for end reason INVALID_PERSISTENT_STORAGE, whatever the metadata and the
validator, the first and unconditional call of `bootloader_abort` is the error
handler (the failed assertion); the run ends there when the handler does not
return, and in a system reset when it does. No validation, no interrupt
disabling, no soft-device call and no application start is made. -/
theorem bootloader_abort_invalid_persistent_storage (p : Platform) (s : State) :
    bootloader_abort p .BL_END_ERROR_INVALID_PERSISTENT_STORAGE s =
      if p.app_error_handler_returns then
        .halt .system_reset { s with log := s.log ++
          [⟨.app_error_handler 0, s.NVIC_ISER⟩, ⟨.NVIC_SystemReset, s.NVIC_ISER⟩] }
      else
        .halt .fatal_error { s with log := s.log ++ [⟨.app_error_handler 0, s.NVIC_ISER⟩] } := by
  cases h : p.app_error_handler_returns <;>
    simp [bootloader_abort, APP_ERROR_CHECK_BOOL, app_error_handler, h, State.record]

/-- C1 as stated fails: with end reason SUCCESS and no FLAGS entry, and with
end reason SUCCESS and an image that fails validation, `bootloader_abort`
returns to its caller; it does not end in a system reset. -/
theorem bootloader_abort_no_reset_counterexample :
    (no_flags_platform.bootloader_info_entry_get no_flags_platform.BOOTLOADER_INFO_ADDRESS
        .BL_INFO_TYPE_FLAGS = none ∧
      bootloader_abort no_flags_platform .BL_END_SUCCESS bound_state = .ok () bound_state ∧
      ¬ ∃ s, bootloader_abort no_flags_platform .BL_END_SUCCESS bound_state
          = .halt .system_reset s) ∧
    (invalid_app_platform.bootloader_info_entry_get invalid_app_platform.BOOTLOADER_INFO_ADDRESS
        .BL_INFO_TYPE_FLAGS = some ⟨0x18000⟩ ∧
      invalid_app_platform.bootloader_app_is_valid 0x18000 = false ∧
      bootloader_abort invalid_app_platform .BL_END_SUCCESS bound_state =
        .ok () { bound_state with log := [⟨.bootloader_app_is_valid 0x18000, 0x100801⟩] } ∧
      ¬ ∃ s, bootloader_abort invalid_app_platform .BL_END_SUCCESS bound_state
          = .halt .system_reset s) := by
  have h1 : bootloader_abort no_flags_platform .BL_END_SUCCESS bound_state
      = .ok () bound_state := rfl
  have h2 : bootloader_abort invalid_app_platform .BL_END_SUCCESS bound_state =
      .ok () { bound_state with log := [⟨.bootloader_app_is_valid 0x18000, 0x100801⟩] } := rfl
  refine ⟨⟨rfl, h1, ?_⟩, rfl, rfl, h2, ?_⟩
  · rintro ⟨s, hs⟩
    rw [h1] at hs
    cases hs
  · rintro ⟨s, hs⟩
    rw [h2] at hs
    cases hs

/-- C1 amended: for each attempt-launch end reason, if the FLAGS entry is
absent or the image at its recorded start address fails validation,
`bootloader_abort` returns to its caller: it makes no call besides the
validation of a present entry, so it neither starts the application nor
resets. -/
theorem bootloader_abort_no_launch_returns (p : Platform) (end_reason : bl_end_t) (s : State)
    (hreason : end_reason = .BL_END_SUCCESS ∨ end_reason = .BL_END_ERROR_TIMEOUT ∨
      end_reason = .BL_END_FWID_VALID ∨ end_reason = .BL_END_ERROR_MBR_CALL_FAILED)
    (hbad : ∀ entry,
      p.bootloader_info_entry_get p.BOOTLOADER_INFO_ADDRESS .BL_INFO_TYPE_FLAGS = some entry →
      p.bootloader_app_is_valid entry.segment_start = false) :
    bootloader_abort p end_reason s =
      .ok () (match p.bootloader_info_entry_get p.BOOTLOADER_INFO_ADDRESS .BL_INFO_TYPE_FLAGS with
        | none => s
        | some entry => { s with log := s.log ++
            [⟨.bootloader_app_is_valid entry.segment_start, s.NVIC_ISER⟩] }) := by
  cases hentry : p.bootloader_info_entry_get p.BOOTLOADER_INFO_ADDRESS .BL_INFO_TYPE_FLAGS with
  | none =>
      rcases hreason with h | h | h | h <;> subst h <;> simp [bootloader_abort, hentry]
  | some entry =>
      have hv := hbad entry hentry
      rcases hreason with h | h | h | h <;> subst h <;>
        simp [bootloader_abort, hentry, bootloader_app_is_valid, hv, State.record]

theorem bootloader_abort_no_launch_returns_witness :
    (bl_end_t.BL_END_ERROR_TIMEOUT = .BL_END_SUCCESS ∨
      bl_end_t.BL_END_ERROR_TIMEOUT = .BL_END_ERROR_TIMEOUT ∨
      bl_end_t.BL_END_ERROR_TIMEOUT = .BL_END_FWID_VALID ∨
      bl_end_t.BL_END_ERROR_TIMEOUT = .BL_END_ERROR_MBR_CALL_FAILED) ∧
    (∀ entry,
      invalid_app_platform.bootloader_info_entry_get invalid_app_platform.BOOTLOADER_INFO_ADDRESS
        .BL_INFO_TYPE_FLAGS = some entry →
      invalid_app_platform.bootloader_app_is_valid entry.segment_start = false) ∧
    bootloader_abort invalid_app_platform .BL_END_ERROR_TIMEOUT bound_state =
      .ok () { bound_state with log := [⟨.bootloader_app_is_valid 0x18000, 0x100801⟩] } :=
  ⟨by decide, fun _ _ => rfl,
    bootloader_abort_no_launch_returns invalid_app_platform .BL_END_ERROR_TIMEOUT bound_state
      (by decide) (fun _ _ => rfl)⟩

/-! ## Binding -/

/-- What `bootloader_init` does with a binding value that its own test rejects:
null, or at or above `0x20000000`. -/
theorem bootloader_init_rejects (p : Platform) (s : State)
    (h : binding_value p = 0 ∨ binding_value p ≥ 0x20000000) :
    bootloader_init p s = .ok () { s with m_cmd_handler := 0 } := by
  simp only [bootloader_init]
  rw [if_pos h]

/-- What `bootloader_init` does with a binding value that passes its test: the
bridge is bound to it, the RTC is started, the INIT command is dispatched with
the interface version, the event callback and one timer, the serial channel is
initialised in a SERIAL build, and Transport is initialised with `rx_cb`. -/
theorem bootloader_init_accepts (p : Platform) (s : State)
    (hnonnull : binding_value p ≠ 0) (hflash : binding_value p < 0x20000000) :
    bootloader_init p s =
      .ok () { s with m_cmd_handler := binding_value p, log := s.log ++
        [⟨.rtc_init, s.NVIC_ISER⟩,
         ⟨.m_cmd_handler (binding_value p)
            (.BL_CMD_TYPE_INIT p.BL_IF_VERSION .bl_evt_handler 1), s.NVIC_ISER⟩] ++
        (if p.SERIAL then [⟨.mesh_aci_init, s.NVIC_ISER⟩] else []) ++
        [⟨.transport_init .rx_cb p.RBC_MESH_ACCESS_ADDRESS_BLE_ADV, s.NVIC_ISER⟩] } := by
  have hcond : ¬ (binding_value p = 0 ∨ binding_value p ≥ 0x20000000) := by
    rintro (h | h)
    · exact hnonnull h
    · exact Nat.not_le.mpr hflash h
  simp only [bootloader_init]
  rw [if_neg hcond]
  cases hserial : p.SERIAL <;>
    simp [m_cmd_handler, State.record, hnonnull, hserial]

/-- C2 as stated fails: the binding location holds the first address past the
RAM, `bootloader_init` leaves a null binding and makes no call, and a later
`bootloader_cmd_send` does not return any status, a failure status included:
it calls through the null binding. -/
theorem bootloader_cmd_send_disabled_counterexample :
    binding_value beyond_ram_platform ≥ ram_end beyond_ram_platform ∧
    bootloader_init beyond_ram_platform boot_state = .ok () boot_state ∧
    bootloader_cmd_send beyond_ram_platform .BL_CMD_TYPE_ENABLE boot_state =
      .halt .null_call { boot_state with log :=
        [⟨.m_cmd_handler 0 .BL_CMD_TYPE_ENABLE, 0x100801⟩] } ∧
    ¬ ∃ status s, bootloader_cmd_send beyond_ram_platform .BL_CMD_TYPE_ENABLE boot_state
        = .ok status s := by
  have h : bootloader_cmd_send beyond_ram_platform .BL_CMD_TYPE_ENABLE boot_state =
      .halt .null_call { boot_state with log :=
        [⟨.m_cmd_handler 0 .BL_CMD_TYPE_ENABLE, 0x100801⟩] } := rfl
  refine ⟨by decide, rfl, h, ?_⟩
  rintro ⟨status, s, hs⟩
  rw [h] at hs
  cases hs

/-- C2 amended: for every invalid value read from the binding location (null,
or an address at or beyond the end of RAM), `bootloader_init` makes no call,
so it dispatches no command, and leaves the binding null; in every state `t`
in which the binding is null, as it stays after that since only
`bootloader_init` assigns it, `bootloader_cmd_send` has no guard: its one
action is the call through the null binding, which does not return, so no
status is reported. -/
theorem bootloader_init_invalid_binding (p : Platform) (s t : State) (p_bl_cmd : bl_cmd_t)
    (hinvalid : binding_value p = 0 ∨ binding_value p ≥ ram_end p)
    (hlater : t.m_cmd_handler = 0) :
    bootloader_init p s = .ok () { s with m_cmd_handler := 0 } ∧
    bootloader_cmd_send p p_bl_cmd t =
      .halt .null_call { t with log := t.log ++ [⟨.m_cmd_handler 0 p_bl_cmd, t.NVIC_ISER⟩] } := by
  constructor
  · apply bootloader_init_rejects
    rcases hinvalid with h | h
    · exact Or.inl h
    · exact Or.inr (Nat.le_trans (Nat.le_add_right _ _) h)
  · simp [bootloader_cmd_send, m_cmd_handler_null _ _ _ hlater, State.record]

theorem bootloader_init_invalid_binding_witness :
    (binding_value beyond_ram_platform = 0 ∨
      binding_value beyond_ram_platform ≥ ram_end beyond_ram_platform) ∧
    boot_state.m_cmd_handler = 0 ∧
    bootloader_init beyond_ram_platform bound_state = .ok () { bound_state with m_cmd_handler := 0 } ∧
    bootloader_cmd_send beyond_ram_platform (.BL_CMD_TYPE_INFO_GET .BL_INFO_TYPE_FLAGS) boot_state =
      .halt .null_call { boot_state with log :=
        [⟨.m_cmd_handler 0 (.BL_CMD_TYPE_INFO_GET .BL_INFO_TYPE_FLAGS), 0x100801⟩] } :=
  ⟨by decide, rfl,
    bootloader_init_invalid_binding beyond_ram_platform bound_state boot_state
      (.BL_CMD_TYPE_INFO_GET .BL_INFO_TYPE_FLAGS) (by decide) rfl⟩

/-- C5 as stated fails: on a bridge that was never initialised,
`bootloader_enable` does not return with the platform untouched: it calls
through the null binding with the ENABLE command. -/
theorem enable_without_binding_counterexample :
    boot_state.m_cmd_handler = 0 ∧
    bootloader_enable example_platform boot_state =
      .halt .null_call { boot_state with log :=
        [⟨.m_cmd_handler 0 .BL_CMD_TYPE_ENABLE, 0x100801⟩] } ∧
    ¬ bootloader_enable example_platform boot_state = .ok () boot_state := by
  have h : bootloader_enable example_platform boot_state =
      .halt .null_call { boot_state with log :=
        [⟨.m_cmd_handler 0 .BL_CMD_TYPE_ENABLE, 0x100801⟩] } := rfl
  refine ⟨rfl, h, ?_⟩
  intro hs
  rw [h] at hs
  cases hs

/-- C5 amended: `bootloader_enable` has no guard. On a bridge whose binding is
null (never resolved, or cleared by `bootloader_init`) its one action is the
call through the null binding with the ENABLE command, which does not return;
no handler receives the command and Transport is not started. -/
theorem bootloader_enable_unbound (p : Platform) (s : State) (hnull : s.m_cmd_handler = 0) :
    bootloader_enable p s =
      .halt .null_call { s with log := s.log ++
        [⟨.m_cmd_handler 0 .BL_CMD_TYPE_ENABLE, s.NVIC_ISER⟩] } := by
  simp [bootloader_enable, m_cmd_handler_null _ _ _ hnull, State.record]

theorem bootloader_enable_unbound_witness :
    boot_state.m_cmd_handler = 0 ∧
    bootloader_enable invalid_app_platform boot_state =
      .halt .null_call { boot_state with log :=
        [⟨.m_cmd_handler 0 .BL_CMD_TYPE_ENABLE, 0x100801⟩] } :=
  ⟨rfl, bootloader_enable_unbound invalid_app_platform boot_state rfl⟩

/-! ## Interrupt controller guard -/

theorem mask_test_iff (mask irq : Nat) :
    mask &&& (IRQ_ENABLED <<< irq) ≠ 0 ↔ mask.testBit irq = true := by
  have hbit : ∀ j, (mask &&& (IRQ_ENABLED <<< irq)).testBit j
      = (mask.testBit j && decide (irq = j)) := by
    intro j
    simp [IRQ_ENABLED, Nat.one_shiftLeft, Nat.testBit_two_pow]
  constructor
  · intro hne
    by_contra hfalse
    apply hne
    apply Nat.zero_of_testBit_eq_false
    intro j
    rw [hbit]
    by_cases hj : irq = j
    · subst hj
      simp [hfalse]
    · simp [hj]
  · intro htrue hzero
    have := hbit irq
    rw [hzero] at this
    simp [htrue] at this

theorem testBit_disabled (x irq j : Nat) :
    (x ^^^ (x &&& (1 <<< (irq % 32)))).testBit j = (x.testBit j && !decide (irq % 32 = j)) := by
  simp only [Nat.testBit_xor, Nat.testBit_and, Nat.one_shiftLeft, Nat.testBit_two_pow]
  cases x.testBit j <;> by_cases h : irq % 32 = j <;> simp [h]

/-- The loop of `interrupts_disable` over any list of interrupt numbers: it
returns, it calls `NVIC_DisableIRQ` for the listed numbers whose bit is set in
the mask, in order, and a bit of the enable register stays set only if it was
set and no such call was made for it. -/
theorem interrupts_disable_loop_run (mask : Nat) (irqs : List Nat) (s : State) :
    ∃ (disabling : List Call) (iser : Nat),
      interrupts_disable_loop mask irqs s =
        .ok () { s with NVIC_ISER := iser, log := s.log ++ disabling } ∧
      disabling.map Call.eff =
        (irqs.filter (fun irq => mask.testBit irq)).map Effect.NVIC_DisableIRQ ∧
      ∀ j, iser.testBit j =
        (s.NVIC_ISER.testBit j && !(irqs.any fun irq => mask.testBit irq && decide (irq % 32 = j))) := by
  induction irqs generalizing s with
  | nil =>
      exact ⟨[], s.NVIC_ISER, by simp [interrupts_disable_loop], rfl, by simp⟩
  | cons irq rest ih =>
      by_cases hbit : mask.testBit irq = true
      · have htest : mask &&& (IRQ_ENABLED <<< irq) ≠ 0 := (mask_test_iff mask irq).mpr hbit
        obtain ⟨d, x, hrun, hd, hx⟩ := ih
          { s.record (.NVIC_DisableIRQ irq) with
            NVIC_ISER := s.NVIC_ISER ^^^ (s.NVIC_ISER &&& (1 <<< (irq % 32))) }
        refine ⟨⟨.NVIC_DisableIRQ irq, s.NVIC_ISER⟩ :: d, x, ?_, ?_, ?_⟩
        · simp only [interrupts_disable_loop, interrupts_disable_step, bind_run, if_pos htest,
            NVIC_DisableIRQ, andThen_ok, hrun]
          simp [State.record]
        · simp [hbit, hd]
        · intro j
          rw [hx j]
          simp only [testBit_disabled, List.any_cons, hbit, Bool.true_and]
          cases s.NVIC_ISER.testBit j <;> by_cases h : irq % 32 = j <;> simp [h]
      · have htest : ¬ mask &&& (IRQ_ENABLED <<< irq) ≠ 0 :=
          fun h => hbit ((mask_test_iff mask irq).mp h)
        obtain ⟨d, x, hrun, hd, hx⟩ := ih s
        refine ⟨d, x, ?_, ?_, ?_⟩
        · simp only [interrupts_disable_loop, interrupts_disable_step, bind_run, if_neg htest,
            pure_run, andThen_ok, hrun]
        · simp [hbit, hd]
        · intro j
          rw [hx j]
          simp [hbit]

/-- Source function `interrupts_disable` on a 32 bit enable register: it calls
`NVIC_DisableIRQ` for exactly the enabled interrupts, in ascending order, and
leaves no interrupt enabled. -/
theorem interrupts_disable_run (s : State) (hiser : s.NVIC_ISER < 2 ^ 32) :
    ∃ disabling : List Call,
      interrupts_disable s = .ok () { s with NVIC_ISER := 0, log := s.log ++ disabling } ∧
      disabling.map Call.eff =
        ((List.range MAX_NUMBER_INTERRUPTS).filter (fun irq => s.NVIC_ISER.testBit irq)).map
          Effect.NVIC_DisableIRQ := by
  obtain ⟨d, x, hrun, hd, hx⟩ :=
    interrupts_disable_loop_run s.NVIC_ISER (List.range MAX_NUMBER_INTERRUPTS) s
  have hzero : x = 0 := by
    apply Nat.zero_of_testBit_eq_false
    intro j
    rw [hx j]
    by_cases hj : j < 32
    · cases hb : s.NVIC_ISER.testBit j
      · simp
      · simp only [Bool.true_and, Bool.not_eq_false_eq_eq_true, List.any_eq_true]
        refine ⟨j, ?_, ?_⟩
        · simpa [MAX_NUMBER_INTERRUPTS] using hj
        · simp [hb, Nat.mod_eq_of_lt hj]
    · have hlt : s.NVIC_ISER < 2 ^ j :=
        Nat.lt_of_lt_of_le hiser (Nat.pow_le_pow_right (by decide) (Nat.le_of_not_lt hj))
      simp [Nat.testBit_lt_two_pow hlt]
  subst hzero
  exact ⟨d, hrun, hd⟩

/-- The launch branch of `bootloader_abort` once the entry is found, the image
is valid and both soft-device calls succeed. -/
theorem launch_run (p : Platform) (entry : bl_info_entry_t) (s : State)
    (hvalid : p.bootloader_app_is_valid entry.segment_start = true)
    (hinit : p.sd_mbr_command_INIT_SD = NRF_SUCCESS)
    (hvtor : p.sd_softdevice_vector_table_base_set entry.segment_start = NRF_SUCCESS)
    (hiser : s.NVIC_ISER < 2 ^ 32) :
    ∃ disabling : List Call,
      disabling.map Call.eff =
        ((List.range MAX_NUMBER_INTERRUPTS).filter (fun irq => s.NVIC_ISER.testBit irq)).map
          Effect.NVIC_DisableIRQ ∧
      (do
        let valid ← bootloader_app_is_valid p entry.segment_start
        if valid then do
          interrupts_disable
          let err_code ← sd_mbr_command_INIT_SD p
          APP_ERROR_CHECK p err_code
          let err_code ← sd_softdevice_vector_table_base_set p entry.segment_start
          APP_ERROR_CHECK p err_code
          call_noreturn (.bootloader_util_app_start entry.segment_start)
            (.app_started entry.segment_start)
        else
          pure () : M Unit) s =
        .halt (.app_started entry.segment_start)
          { s with NVIC_ISER := 0, log := s.log ++
            [⟨.bootloader_app_is_valid entry.segment_start, s.NVIC_ISER⟩] ++ disabling ++
            [⟨.sd_mbr_command_INIT_SD, 0⟩,
             ⟨.sd_softdevice_vector_table_base_set entry.segment_start, 0⟩,
             ⟨.bootloader_util_app_start entry.segment_start, 0⟩] } := by
  obtain ⟨d, hrun, hd⟩ :=
    interrupts_disable_run (s.record (.bootloader_app_is_valid entry.segment_start)) hiser
  refine ⟨d, hd, ?_⟩
  simp only [bind_run, bootloader_app_is_valid, hvalid, andThen_ok, if_true, hrun,
    sd_mbr_command_INIT_SD, sd_softdevice_vector_table_base_set, hinit, hvtor, APP_ERROR_CHECK,
    ne_eq, not_true_eq_false, if_false, pure_run, call_noreturn_run]
  simp [State.record]

/-- C3: on every successful launch path of `bootloader_abort` (attempt-launch
end reason, FLAGS entry present, image at its start address valid, both
soft-device calls succeeding, 32 bit enable register) the run ends with the
application started at the recorded start address, and the calls made are, in
this order: the validation of that address, `NVIC_DisableIRQ` for exactly the
interrupts that were enabled, in ascending order, the soft-device
reinitialisation, the vector table base set to that address, the jump to that
address. No interrupt is enabled when the last three calls are made, nor
afterwards. -/
theorem bootloader_abort_launch_order (p : Platform) (end_reason : bl_end_t)
    (entry : bl_info_entry_t) (s : State)
    (hreason : end_reason = .BL_END_SUCCESS ∨ end_reason = .BL_END_ERROR_TIMEOUT ∨
      end_reason = .BL_END_FWID_VALID ∨ end_reason = .BL_END_ERROR_MBR_CALL_FAILED)
    (hentry : p.bootloader_info_entry_get p.BOOTLOADER_INFO_ADDRESS .BL_INFO_TYPE_FLAGS
      = some entry)
    (hvalid : p.bootloader_app_is_valid entry.segment_start = true)
    (hinit : p.sd_mbr_command_INIT_SD = NRF_SUCCESS)
    (hvtor : p.sd_softdevice_vector_table_base_set entry.segment_start = NRF_SUCCESS)
    (hiser : s.NVIC_ISER < 2 ^ 32) :
    ∃ disabling : List Call,
      disabling.map Call.eff =
        ((List.range MAX_NUMBER_INTERRUPTS).filter (fun irq => s.NVIC_ISER.testBit irq)).map
          Effect.NVIC_DisableIRQ ∧
      bootloader_abort p end_reason s =
        .halt (.app_started entry.segment_start)
          { s with NVIC_ISER := 0, log := s.log ++
            [⟨.bootloader_app_is_valid entry.segment_start, s.NVIC_ISER⟩] ++ disabling ++
            [⟨.sd_mbr_command_INIT_SD, 0⟩,
             ⟨.sd_softdevice_vector_table_base_set entry.segment_start, 0⟩,
             ⟨.bootloader_util_app_start entry.segment_start, 0⟩] } := by
  obtain ⟨d, hd, hrun⟩ := launch_run p entry s hvalid hinit hvtor hiser
  refine ⟨d, hd, ?_⟩
  rw [← hrun]
  rcases hreason with h | h | h | h <;> subst h <;> simp only [bootloader_abort, hentry]

theorem bootloader_abort_launch_order_witness :
    (bl_end_t.BL_END_FWID_VALID = .BL_END_SUCCESS ∨
      bl_end_t.BL_END_FWID_VALID = .BL_END_ERROR_TIMEOUT ∨
      bl_end_t.BL_END_FWID_VALID = .BL_END_FWID_VALID ∨
      bl_end_t.BL_END_FWID_VALID = .BL_END_ERROR_MBR_CALL_FAILED) ∧
    example_platform.bootloader_info_entry_get example_platform.BOOTLOADER_INFO_ADDRESS
      .BL_INFO_TYPE_FLAGS = some ⟨0x18000⟩ ∧
    example_platform.bootloader_app_is_valid 0x18000 = true ∧
    example_platform.sd_mbr_command_INIT_SD = NRF_SUCCESS ∧
    example_platform.sd_softdevice_vector_table_base_set 0x18000 = NRF_SUCCESS ∧
    bound_state.NVIC_ISER < 2 ^ 32 ∧
    ∃ disabling : List Call,
      disabling.map Call.eff =
        ((List.range MAX_NUMBER_INTERRUPTS).filter
          (fun irq => bound_state.NVIC_ISER.testBit irq)).map Effect.NVIC_DisableIRQ ∧
      bootloader_abort example_platform .BL_END_FWID_VALID bound_state =
        .halt (.app_started 0x18000)
          { bound_state with NVIC_ISER := 0, log := bound_state.log ++
            [⟨.bootloader_app_is_valid 0x18000, bound_state.NVIC_ISER⟩] ++ disabling ++
            [⟨.sd_mbr_command_INIT_SD, 0⟩,
             ⟨.sd_softdevice_vector_table_base_set 0x18000, 0⟩,
             ⟨.bootloader_util_app_start 0x18000, 0⟩] } :=
  ⟨by decide, rfl, by decide, rfl, rfl, by decide,
    bootloader_abort_launch_order example_platform .BL_END_FWID_VALID ⟨0x18000⟩ bound_state
      (by decide) rfl (by decide) rfl rfl (by decide)⟩

/-! ## The binding is assigned by `bootloader_init` only -/

theorem keeps_pure {α : Type} (a : α) : KeepsBinding (pure a : M α) := fun _ => rfl

theorem keeps_bind {α β : Type} (m : M α) (f : α → M β) (hm : KeepsBinding m)
    (hf : ∀ a, KeepsBinding (f a)) : KeepsBinding (m >>= f) := by
  intro s
  have h := hm s
  rw [bind_run]
  cases hr : m s with
  | ok a s1 =>
      rw [hr] at h
      rw [andThen_ok, hf a s1]
      exact h
  | halt e s1 =>
      rw [hr] at h
      exact h

theorem keeps_call (e : Effect) : KeepsBinding (call e) := fun _ => rfl

theorem keeps_call_noreturn {α : Type} (e : Effect) (h : Halt) :
    KeepsBinding (call_noreturn e h : M α) := fun _ => rfl

theorem keeps_m_cmd_handler (p : Platform) (cmd : bl_cmd_t) :
    KeepsBinding (m_cmd_handler p cmd) := by
  intro s
  unfold m_cmd_handler
  split <;> rfl

theorem keeps_interrupts_disable : KeepsBinding interrupts_disable := by
  intro s
  obtain ⟨d, x, hrun, -, -⟩ :=
    interrupts_disable_loop_run s.NVIC_ISER (List.range MAX_NUMBER_INTERRUPTS) s
  have h : interrupts_disable s = .ok () { s with NVIC_ISER := x, log := s.log ++ d } := hrun
  rw [h]
  rfl

theorem keeps_app_error_handler (p : Platform) (error_code : Nat) :
    KeepsBinding (app_error_handler p error_code) := by
  unfold app_error_handler
  split
  · exact keeps_call _
  · exact keeps_call_noreturn _ _

theorem keeps_APP_ERROR_CHECK (p : Platform) (err_code : Nat) :
    KeepsBinding (APP_ERROR_CHECK p err_code) := by
  unfold APP_ERROR_CHECK
  split
  · exact keeps_app_error_handler _ _
  · exact keeps_pure _

theorem keeps_bootloader_abort (p : Platform) (end_reason : bl_end_t) :
    KeepsBinding (bootloader_abort p end_reason) := by
  have hlaunch : ∀ entry : bl_info_entry_t, KeepsBinding (do
      let valid ← bootloader_app_is_valid p entry.segment_start
      if valid then do
        interrupts_disable
        let err_code ← sd_mbr_command_INIT_SD p
        APP_ERROR_CHECK p err_code
        let err_code ← sd_softdevice_vector_table_base_set p entry.segment_start
        APP_ERROR_CHECK p err_code
        call_noreturn (.bootloader_util_app_start entry.segment_start)
          (.app_started entry.segment_start)
      else
        pure () : M Unit) := by
    intro entry
    refine keeps_bind _ _ (fun _ => rfl) ?_
    intro valid
    cases valid
    · exact keeps_pure _
    · refine keeps_bind _ _ keeps_interrupts_disable fun _ => ?_
      refine keeps_bind _ _ (fun _ => rfl) fun _ => ?_
      refine keeps_bind _ _ (keeps_APP_ERROR_CHECK _ _) fun _ => ?_
      refine keeps_bind _ _ (fun _ => rfl) fun _ => ?_
      exact keeps_bind _ _ (keeps_APP_ERROR_CHECK _ _) fun _ => keeps_call_noreturn _ _
  have hattempt : KeepsBinding (match
      p.bootloader_info_entry_get p.BOOTLOADER_INFO_ADDRESS .BL_INFO_TYPE_FLAGS with
      | none => (pure () : M Unit)
      | some entry => do
        let valid ← bootloader_app_is_valid p entry.segment_start
        if valid then do
          interrupts_disable
          let err_code ← sd_mbr_command_INIT_SD p
          APP_ERROR_CHECK p err_code
          let err_code ← sd_softdevice_vector_table_base_set p entry.segment_start
          APP_ERROR_CHECK p err_code
          call_noreturn (.bootloader_util_app_start entry.segment_start)
            (.app_started entry.segment_start)
        else
          pure ()) := by
    cases p.bootloader_info_entry_get p.BOOTLOADER_INFO_ADDRESS .BL_INFO_TYPE_FLAGS with
    | none => exact keeps_pure _
    | some entry => exact hlaunch entry
  cases end_reason with
  | BL_END_SUCCESS => exact hattempt
  | BL_END_ERROR_TIMEOUT => exact hattempt
  | BL_END_FWID_VALID => exact hattempt
  | BL_END_ERROR_MBR_CALL_FAILED => exact hattempt
  | BL_END_ERROR_INVALID_PERSISTENT_STORAGE =>
      refine keeps_bind _ _ ?_ fun _ => keeps_call_noreturn _ _
      unfold APP_ERROR_CHECK_BOOL
      exact keeps_app_error_handler _ _
  | other n => exact keeps_call_noreturn _ _

/-- No bridge function other than `bootloader_init` assigns the binding: it has
the same value after `bl_evt_handler`, `rx_cb`, `bootloader_enable` and
`bootloader_cmd_send` as before, however the run ends. -/
theorem binding_assigned_by_init_only (p : Platform) :
    (∀ evt, KeepsBinding (bl_evt_handler p evt)) ∧
    (∀ p_packet, KeepsBinding (rx_cb p p_packet)) ∧
    KeepsBinding (bootloader_enable p) ∧
    (∀ p_bl_cmd, KeepsBinding (bootloader_cmd_send p p_bl_cmd)) := by
  refine ⟨?_, ?_, ?_, ?_⟩
  · intro evt
    cases evt with
    | BL_EVT_TYPE_ABORT reason =>
        exact keeps_bind _ _ (keeps_bootloader_abort p reason) fun _ => keeps_pure _
    | BL_EVT_TYPE_TX_RADIO p_dfu_packet tx_count interval_type =>
        refine keeps_bind _ _ (fun _ => rfl) fun sent => ?_
        cases sent <;> exact keeps_pure _
    | BL_EVT_TYPE_TIMER_SET delay_us =>
        refine keeps_bind _ _ ?_ fun _ => keeps_pure _
        unfold set_timeout
        split
        · exact keeps_pure _
        · refine keeps_bind _ _ (keeps_call _) fun _ => ?_
          refine keeps_bind _ _ (fun _ => rfl) fun _ => ?_
          exact keeps_bind _ _ (keeps_call _) fun _ => keeps_call _
    | BL_EVT_TYPE_FLASH_WRITE start_addr p_data length =>
        refine keeps_bind _ _ (keeps_call _) fun _ => ?_
        exact keeps_bind _ _ (keeps_m_cmd_handler _ _) fun _ => keeps_pure _
    | BL_EVT_TYPE_FLASH_ERASE start_addr length =>
        refine keeps_bind _ _ (keeps_call _) fun _ => ?_
        exact keeps_bind _ _ (keeps_m_cmd_handler _ _) fun _ => keeps_pure _
    | other type => exact keeps_pure _
  · intro p_packet
    unfold rx_cb
    split
    · exact keeps_pure _
    · split
      · exact keeps_bind _ _ (keeps_m_cmd_handler _ _) fun _ => keeps_pure _
      · exact keeps_pure _
  · exact keeps_bind _ _ (keeps_m_cmd_handler _ _) fun _ => keeps_call _
  · intro p_bl_cmd
    exact keeps_m_cmd_handler _ _

end Bootloader
